import Mathlib

/-!
Verification of the AWS inactive-access-key rotation audit tool.

The repository consists of three Python files. The orchestration flow
(`run_assessment`), the empty-inventory guard of `analyze_all_access_keys`
and the session bootstrap (`initialize_aws_session`) are present in the
source and are embedded directly. The risk-classification and aggregation
core is elided in the source (the body of `analyze_all_access_keys` is
truncated), so those parts are modelled from the specification, as marked
on each definition.
-/

namespace KeyRotation

/-- Risk tiers of an access key, ordered by severity:
`CRITICAL > HIGH > MEDIUM > LOW > COMPLIANT`. -/
inductive RiskTier
  | COMPLIANT
  | LOW
  | MEDIUM
  | HIGH
  | CRITICAL
deriving DecidableEq, Repr

/-- Numeric severity of a tier, larger is worse. -/
def RiskTier.sev : RiskTier → Nat
  | .COMPLIANT => 0
  | .LOW => 1
  | .MEDIUM => 2
  | .HIGH => 3
  | .CRITICAL => 4

/-- The worse of two tiers (maximum under the severity order). -/
def RiskTier.worse (a b : RiskTier) : RiskTier :=
  if a.sev ≤ b.sev then b else a

/-- Creation timestamp of a key as captured at scan time: either a valid
timestamp, rendered as an age in days, or a malformed/missing value. -/
inductive CreationInfo
  | ageDays (d : Nat)
  | malformed
deriving DecidableEq, Repr

/-- Last-used metadata of a key: never used, used some days ago, or a
malformed/unparseable timestamp. -/
inductive LastUsedInfo
  | never
  | usedDaysAgo (d : Nat)
  | malformed
deriving DecidableEq, Repr

/-- An IAM access key snapshot: identifier, owning user, status, creation
timestamp and last-used metadata. -/
structure AccessKey where
  keyId : String
  userName : String
  status : String
  creation : CreationInfo
  lastUsed : LastUsedInfo
deriving DecidableEq, Repr

/-- Error raised when a timestamp of a single key cannot be parsed. -/
structure DataError where
  message : String
deriving DecidableEq, Repr

/-- One triggered classification rule: its reason text and its severity. -/
structure Finding where
  reason : String
  sev : RiskTier
deriving DecidableEq, Repr

/-- The classification result for one key: the key, derived age and
last-use fields, the reported risk tier and the triggered findings. -/
structure KeyFinding where
  key : AccessKey
  ageDays : Nat
  daysSinceLastUse : Option Nat
  tier : RiskTier
  findings : List Finding
deriving DecidableEq, Repr

/-- Modelled from the spec: the base classification rules of the Risk
Classifier (the body of `analyze_all_access_keys` is truncated in the
source), evaluated in priority order, first match wins.
Never used and age over 90 days gives CRITICAL; never used otherwise
gives HIGH; last used over 90 days ago gives HIGH; last used 30 to 90
days ago gives MEDIUM; otherwise COMPLIANT with no finding. -/
def baseRule (age : Nat) (lastUsed : Option Nat) : RiskTier × List Finding :=
  match lastUsed with
  | none =>
    if 90 < age then (.CRITICAL, [⟨"unused key older than 90 days", .CRITICAL⟩])
    else (.HIGH, [⟨"unused new key", .HIGH⟩])
  | some d =>
    if 90 < d then (.HIGH, [⟨"stale key, inactive > 90 days", .HIGH⟩])
    else if 30 ≤ d then (.MEDIUM, [⟨"infrequently used", .MEDIUM⟩])
    else (.COMPLIANT, [])

/-- Modelled from the spec: the Risk Classifier (elided in the source).
A malformed creation or last-used timestamp fails with `DataError`.
Otherwise the base rule fires, and a key older than 365 days additionally
triggers the annual-rotation finding, escalating the tier to at least
HIGH. -/
def classifyKey (k : AccessKey) : Except DataError KeyFinding :=
  match k.creation with
  | .malformed => .error ⟨"unparseable creation timestamp"⟩
  | .ageDays age =>
    match k.lastUsed with
    | .malformed => .error ⟨"unparseable last-used timestamp"⟩
    | .never =>
      let (t0, fs0) := baseRule age none
      if 365 < age then
        .ok ⟨k, age, none, t0.worse .HIGH,
             fs0 ++ [⟨"exceeds annual rotation policy", .HIGH⟩]⟩
      else
        .ok ⟨k, age, none, t0, fs0⟩
    | .usedDaysAgo d =>
      let (t0, fs0) := baseRule age (some d)
      if 365 < age then
        .ok ⟨k, age, some d, t0.worse .HIGH,
             fs0 ++ [⟨"exceeds annual rotation policy", .HIGH⟩]⟩
      else
        .ok ⟨k, age, some d, t0, fs0⟩

/-- Maximum severity among a list of findings; COMPLIANT when empty. -/
def maxSeverity (fs : List Finding) : RiskTier :=
  fs.foldr (fun f acc => RiskTier.worse f.sev acc) .COMPLIANT

/-- Spec scenario: a key created 100 days ago, never used. -/
theorem scenario_unused_100 :
    classifyKey ⟨"AK1", "alice", "Active", .ageDays 100, .never⟩ =
      .ok ⟨⟨"AK1", "alice", "Active", .ageDays 100, .never⟩, 100, none,
           .CRITICAL, [⟨"unused key older than 90 days", .CRITICAL⟩]⟩ := by
  rfl

/-- Spec scenario: a key created 400 days ago, used yesterday. -/
theorem scenario_rotation_400 :
    classifyKey ⟨"AK2", "bob", "Active", .ageDays 400, .usedDaysAgo 1⟩ =
      .ok ⟨⟨"AK2", "bob", "Active", .ageDays 400, .usedDaysAgo 1⟩, 400, some 1,
           .HIGH, [⟨"exceeds annual rotation policy", .HIGH⟩]⟩ := by
  rfl

/-- Spec scenario: a key created 10 days ago, last used 5 days ago. -/
theorem scenario_fresh_key :
    classifyKey ⟨"AK3", "carol", "Active", .ageDays 10, .usedDaysAgo 5⟩ =
      .ok ⟨⟨"AK3", "carol", "Active", .ageDays 10, .usedDaysAgo 5⟩, 10, some 5,
           .COMPLIANT, []⟩ := by
  rfl

/-- An IAM user together with the access keys the inventory fetcher
returned for that user. -/
structure IAMUser where
  userName : String
  accessKeys : List AccessKey
deriving DecidableEq, Repr

/-- The classification of a key when it succeeds, `none` on `DataError`. -/
def okFinding (k : AccessKey) : Option KeyFinding :=
  match classifyKey k with
  | .ok f => some f
  | .error _ => none

/-- Whether classification of a key fails with a `DataError`. -/
def isUnparseable (k : AccessKey) : Bool :=
  match classifyKey k with
  | .ok _ => false
  | .error _ => true

/-- Per-user summary: key count, the findings of the keys that classified,
the keys whose timestamps were unparseable, and the worst tier. -/
structure UserSummary where
  userName : String
  keyCount : Nat
  findings : List KeyFinding
  unparseableKeys : List AccessKey
  worstTier : RiskTier
deriving DecidableEq, Repr

/-- Modelled from the spec: per-user analysis (elided in the source).
Each key is classified; a `DataError` on one key does not abort the run,
the key is instead collected as unparseable. -/
def analyzeUser (u : IAMUser) : UserSummary :=
  let fs := u.accessKeys.filterMap okFinding
  { userName := u.userName
    keyCount := u.accessKeys.length
    findings := fs
    unparseableKeys := u.accessKeys.filter isUnparseable
    worstTier := fs.foldr (fun f acc => RiskTier.worse f.tier acc) .COMPLIANT }

/-- All findings of an account, in user order. -/
def accountFindings (summaries : List UserSummary) : List KeyFinding :=
  (summaries.map (fun s => s.findings)).flatten

/-- Number of findings classified at exactly tier `t`. -/
def tierCount (fs : List KeyFinding) (t : RiskTier) : Nat :=
  fs.countP (fun f => f.tier == t)

/-- Account-wide summary statistics. -/
structure AccountSummary where
  totalUsers : Nat
  usersWithKeys : Nat
  totalKeys : Nat
  criticalKeys : Nat
  highRiskKeys : Nat
  mediumKeys : Nat
  lowKeys : Nat
  compliantKeys : Nat
  neverUsedKeys : Nat
  unparseableCount : Nat
  complianceRate : ℚ
deriving DecidableEq, Repr

/-- Rounding to one decimal place. -/
def roundTo1 (x : ℚ) : ℚ := (round (10 * x) : ℚ) / 10

/-- Modelled from the spec: the compliance rate (elided in the source).
It never divides by zero: with zero total keys it is 100, otherwise it is
100 times the fraction of keys that are neither critical nor high risk,
rounded to one decimal. -/
def complianceRateOf (totalKeys critical high : Nat) : ℚ :=
  if totalKeys = 0 then 100
  else roundTo1 (100 * ((totalKeys : ℚ) - critical - high) / totalKeys)

/-- Overall compliance verdict of the account. -/
inductive OverallStatus
  | COMPLIANT
  | NON_COMPLIANT
deriving DecidableEq, Repr

/-- The configured compliance-rate threshold (reference value 90). -/
def COMPLIANCE_THRESHOLD : ℚ := 90

/-- Modelled from the spec: the overall status computed by the report
generator (elided in the source): COMPLIANT iff there are no critical
keys and the compliance rate reaches the threshold. -/
def overallStatus (s : AccountSummary) : OverallStatus :=
  if s.criticalKeys = 0 ∧ COMPLIANCE_THRESHOLD ≤ s.complianceRate then .COMPLIANT
  else .NON_COMPLIANT

/-- Modelled from the spec: the Aggregator (elided in the source). Rolls
per-user summaries into the account-wide summary; all counts are plain
sums over the flattened findings. -/
def aggregate (summaries : List UserSummary) : AccountSummary :=
  let fs := accountFindings summaries
  let total := (summaries.map (fun s => s.keyCount)).sum
  let crit := tierCount fs .CRITICAL
  let high := tierCount fs .HIGH
  { totalUsers := summaries.length
    usersWithKeys := summaries.countP (fun s => s.keyCount != 0)
    totalKeys := total
    criticalKeys := crit
    highRiskKeys := high
    mediumKeys := tierCount fs .MEDIUM
    lowKeys := tierCount fs .LOW
    compliantKeys := tierCount fs .COMPLIANT
    neverUsedKeys := fs.countP (fun f => f.daysSinceLastUse.isNone)
    unparseableCount := (summaries.map (fun s => s.unparseableKeys.length)).sum
    complianceRate := complianceRateOf total crit high }

/-- The analysis results returned by `analyze_all_access_keys` on
success: the per-user summaries and the account summary. -/
structure AnalysisResults where
  userSummaries : List UserSummary
  summary : AccountSummary
deriving DecidableEq, Repr

/-- Modelled from the spec: the analysis core (elided in the source):
classify every key of every user, then aggregate. -/
def mkAnalysisResults (users : List IAMUser) : AnalysisResults :=
  let ss := users.map analyzeUser
  ⟨ss, aggregate ss⟩

/-- Embedding of `analyze_all_access_keys` (src/access-key-analysis.py):
`get_all_iam_users` may fail (`none`) or return a user list; on failure
or on an empty user list the function returns `None`, otherwise it runs
the (elided) analysis core and returns its results. -/
def analyze_all_access_keys (fetched : Option (List IAMUser)) :
    Option AnalysisResults :=
  match fetched with
  | none => none
  | some users =>
    if users.isEmpty then none
    else some (mkAnalysisResults users)

/-- A report-emission event observable during a run. -/
inductive ReportEvent
  | jsonReport (status : OverallStatus)
  | csvReport
  | consoleSummary
deriving DecidableEq, Repr

/-- Outcome of a run: the boolean `run_assessment` returns and the
reports it emitted, in order. -/
structure RunResult where
  success : Bool
  reports : List ReportEvent
deriving DecidableEq, Repr

/-- Environment of the session bootstrap: the optional profile name,
whether that profile resolves, and whether credentials resolve. -/
structure SessionEnv where
  profileName : Option String
  profileFound : Bool
  credentialsFound : Bool
deriving DecidableEq, Repr

/-- Embedding of `initialize_aws_session` (src/session_initialization.py):
returns `True` on success; `ProfileNotFound` (only possible when a profile
name was given) and `NoCredentialsError` are caught and yield `False`. -/
def initialize_aws_session (e : SessionEnv) : Bool :=
  match e.profileName with
  | some _ => e.profileFound && e.credentialsFound
  | none => e.credentialsFound

/-- Modelled from the spec: `generate_json_report` (not in the source)
computes the overall compliance status from the account summary. -/
def generate_json_report (r : AnalysisResults) : OverallStatus :=
  overallStatus r.summary

/-- Embedding of `run_assessment` (src/assessment-orchestration.py):
abort with `False` and no reports when session initialization fails;
abort with `False` and no reports when `analyze_all_access_keys` returns
a falsy result; otherwise emit the JSON report, the CSV report and the
console summary and return `True`. -/
def run_assessment (e : SessionEnv) (fetched : Option (List IAMUser)) :
    RunResult :=
  if !initialize_aws_session e then ⟨false, []⟩
  else
    match analyze_all_access_keys fetched with
    | none => ⟨false, []⟩
    | some res =>
      ⟨true, [.jsonReport (generate_json_report res), .csvReport,
              .consoleSummary]⟩

/-- For every tier, escalating by HIGH yields HIGH or CRITICAL. -/
theorem RiskTier.worse_high (t : RiskTier) :
    t.worse .HIGH = .HIGH ∨ t.worse .HIGH = .CRITICAL := by
  cases t <;> simp [RiskTier.worse, RiskTier.sev]

/-- Claim C1: every access key with no last-used timestamp and age over
90 days classifies as CRITICAL with reason "unused key older than 90
days" among its findings. -/
theorem never_used_old_key_critical (k : AccessKey) (age : Nat)
    (hc : k.creation = .ageDays age) (hl : k.lastUsed = .never)
    (hage : 90 < age) :
    ∃ f, classifyKey k = .ok f ∧ f.tier = .CRITICAL ∧
      "unused key older than 90 days" ∈ f.findings.map (fun fd => fd.reason) := by
  by_cases h365 : 365 < age <;>
    simp [classifyKey, hc, hl, baseRule, hage, h365, RiskTier.worse, RiskTier.sev]

def kC1 : AccessKey := ⟨"AKIA100", "alice", "Active", .ageDays 100, .never⟩

/-- Witness for C1: a key created 100 days ago and never used. -/
theorem never_used_old_key_critical_witness :
    kC1.creation = .ageDays 100 ∧ kC1.lastUsed = .never ∧ 90 < 100 ∧
    ∃ f, classifyKey kC1 = .ok f ∧ f.tier = .CRITICAL ∧
      "unused key older than 90 days" ∈ f.findings.map (fun fd => fd.reason) :=
  ⟨rfl, rfl, by decide, never_used_old_key_critical kC1 100 rfl rfl (by decide)⟩

/-- Claim C2: every parseable access key older than 365 days, whatever
its last use, carries the finding "exceeds annual rotation policy" and
its reported tier is HIGH or CRITICAL. -/
theorem rotation_policy_escalates (k : AccessKey) (age : Nat)
    (hc : k.creation = .ageDays age) (hml : k.lastUsed ≠ .malformed)
    (h365 : 365 < age) :
    ∃ f, classifyKey k = .ok f ∧
      "exceeds annual rotation policy" ∈ f.findings.map (fun fd => fd.reason) ∧
      (f.tier = .HIGH ∨ f.tier = .CRITICAL) := by
  have h90 : 90 < age := by omega
  cases hlu : k.lastUsed with
  | malformed => exact absurd hlu hml
  | never =>
    simp [classifyKey, hc, hlu, baseRule, h90, h365, RiskTier.worse, RiskTier.sev]
  | usedDaysAgo d =>
    by_cases hd90 : 90 < d
    · simp [classifyKey, hc, hlu, baseRule, hd90, h365, RiskTier.worse, RiskTier.sev]
    · by_cases hd30 : 30 ≤ d <;>
        simp [classifyKey, hc, hlu, baseRule, hd90, hd30, h365,
          RiskTier.worse, RiskTier.sev]

def kC2 : AccessKey := ⟨"AKIA400", "bob", "Active", .ageDays 400, .usedDaysAgo 1⟩

/-- Witness for C2: a key created 400 days ago, used yesterday. -/
theorem rotation_policy_escalates_witness :
    kC2.creation = .ageDays 400 ∧ kC2.lastUsed ≠ .malformed ∧ 365 < 400 ∧
    ∃ f, classifyKey kC2 = .ok f ∧
      "exceeds annual rotation policy" ∈ f.findings.map (fun fd => fd.reason) ∧
      (f.tier = .HIGH ∨ f.tier = .CRITICAL) :=
  ⟨rfl, by decide, by decide,
    rotation_policy_escalates kC2 400 rfl (by decide) (by decide)⟩

/-- Claim C3: for every key that classifies, the reported tier equals the
maximum severity among the triggered findings under the order
`CRITICAL > HIGH > MEDIUM > LOW > COMPLIANT`. -/
theorem tier_eq_max_severity (k : AccessKey) (f : KeyFinding)
    (h : classifyKey k = .ok f) : f.tier = maxSeverity f.findings := by
  obtain ⟨id, user, st, cr, lu⟩ := k
  cases cr with
  | malformed => simp [classifyKey] at h
  | ageDays age =>
    cases lu with
    | malformed => simp [classifyKey] at h
    | never =>
      by_cases h90 : 90 < age <;> by_cases h365 : 365 < age <;>
        simp [classifyKey, baseRule, h90, h365] at h <;>
        subst h <;> rfl
    | usedDaysAgo d =>
      by_cases hd90 : 90 < d <;> by_cases hd30 : 30 ≤ d <;>
        by_cases h365 : 365 < age <;>
        simp [classifyKey, baseRule, hd90, hd30, h365] at h <;>
        subst h <;> rfl

def kC3 : AccessKey := ⟨"AKIA500", "carol", "Active", .ageDays 400, .usedDaysAgo 200⟩

def fC3 : KeyFinding :=
  ⟨kC3, 400, some 200, .HIGH,
    [⟨"stale key, inactive > 90 days", .HIGH⟩,
     ⟨"exceeds annual rotation policy", .HIGH⟩]⟩

/-- Witness for C3: a stale key that also breaks the rotation policy. -/
theorem tier_eq_max_severity_witness :
    classifyKey kC3 = .ok fC3 ∧ fC3.tier = maxSeverity fC3.findings :=
  ⟨rfl, tier_eq_max_severity kC3 fC3 rfl⟩

theorem aggregate_totalKeys (ss : List UserSummary) :
    (aggregate ss).totalKeys = (ss.map (fun s => s.keyCount)).sum := rfl

theorem aggregate_criticalKeys (ss : List UserSummary) :
    (aggregate ss).criticalKeys = tierCount (accountFindings ss) .CRITICAL := rfl

theorem aggregate_highRiskKeys (ss : List UserSummary) :
    (aggregate ss).highRiskKeys = tierCount (accountFindings ss) .HIGH := rfl

theorem aggregate_mediumKeys (ss : List UserSummary) :
    (aggregate ss).mediumKeys = tierCount (accountFindings ss) .MEDIUM := rfl

theorem aggregate_lowKeys (ss : List UserSummary) :
    (aggregate ss).lowKeys = tierCount (accountFindings ss) .LOW := rfl

theorem aggregate_compliantKeys (ss : List UserSummary) :
    (aggregate ss).compliantKeys = tierCount (accountFindings ss) .COMPLIANT := rfl

theorem aggregate_unparseableCount (ss : List UserSummary) :
    (aggregate ss).unparseableCount =
      (ss.map (fun s => s.unparseableKeys.length)).sum := rfl

theorem aggregate_complianceRate (ss : List UserSummary) :
    (aggregate ss).complianceRate =
      complianceRateOf (aggregate ss).totalKeys (aggregate ss).criticalKeys
        (aggregate ss).highRiskKeys := rfl

/-- The five tier counts partition the findings of a list. -/
theorem tierCount_partition (fs : List KeyFinding) :
    tierCount fs .CRITICAL + tierCount fs .HIGH + tierCount fs .MEDIUM +
      tierCount fs .LOW + tierCount fs .COMPLIANT = fs.length := by
  induction fs with
  | nil => rfl
  | cons f t ih =>
    cases h : f.tier <;>
      simp [tierCount, List.countP_cons, h] at * <;> omega

/-- Classified and unparseable keys of one user partition its key list. -/
theorem length_filterMap_add_filter (ks : List AccessKey) :
    (ks.filterMap okFinding).length + (ks.filter isUnparseable).length =
      ks.length := by
  induction ks with
  | nil => rfl
  | cons k t ih =>
    cases hck : classifyKey k <;>
      simp [okFinding, isUnparseable, hck, List.filterMap_cons, List.filter_cons] <;>
      omega

/-- Length of the flattened findings as a sum over user summaries. -/
theorem accountFindings_length (ss : List UserSummary) :
    (accountFindings ss).length = (ss.map (fun s => s.findings.length)).sum := by
  simp only [accountFindings, List.length_flatten, List.map_map]
  rfl

/-- Findings plus unparseable keys account for every key of every user. -/
theorem findings_add_unparseable (users : List IAMUser) :
    (accountFindings (users.map analyzeUser)).length +
      (aggregate (users.map analyzeUser)).unparseableCount =
      (aggregate (users.map analyzeUser)).totalKeys := by
  rw [accountFindings_length, aggregate_unparseableCount, aggregate_totalKeys]
  induction users with
  | nil => rfl
  | cons u t ih =>
    simp only [List.map_cons, List.sum_cons]
    have hu := length_filterMap_add_filter u.accessKeys
    simp only [analyzeUser] at *
    omega

/-- Critical plus high-risk counts never exceed the total key count. -/
theorem crit_add_high_le_total (users : List IAMUser) :
    (aggregate (users.map analyzeUser)).criticalKeys +
      (aggregate (users.map analyzeUser)).highRiskKeys ≤
      (aggregate (users.map analyzeUser)).totalKeys := by
  have hpart := tierCount_partition (accountFindings (users.map analyzeUser))
  have hfu := findings_add_unparseable users
  rw [aggregate_criticalKeys, aggregate_highRiskKeys]
  omega

/-- Rounding to one decimal preserves the interval from 0 to 100. -/
theorem roundTo1_bounds (x : ℚ) (h0 : 0 ≤ x) (h100 : x ≤ 100) :
    0 ≤ roundTo1 x ∧ roundTo1 x ≤ 100 := by
  have h1 : (0:ℤ) ≤ round (10 * x) := by
    rw [round_eq]
    have hf : ⌊(0:ℚ) + 1/2⌋ ≤ ⌊10 * x + 1/2⌋ := Int.floor_mono (by linarith)
    have h0f : ⌊(0:ℚ) + 1/2⌋ = 0 := by norm_num
    omega
  have h2 : round (10 * x) ≤ 1000 := by
    rw [round_eq]
    have hf : ⌊10 * x + 1/2⌋ ≤ ⌊(1000:ℚ) + 1/2⌋ := Int.floor_mono (by linarith)
    have h1000 : ⌊(1000:ℚ) + 1/2⌋ = 1000 := by norm_num
    omega
  constructor
  · have : (0:ℚ) ≤ (round (10 * x) : ℤ) := by exact_mod_cast h1
    unfold roundTo1
    positivity
  · unfold roundTo1
    rw [div_le_iff₀ (by norm_num : (0:ℚ) < 10)]
    have : ((round (10 * x) : ℤ) : ℚ) ≤ 1000 := by exact_mod_cast h2
    linarith

/-- Claim C4: with zero total keys the aggregator does not divide by
zero: the compliance rate is 100 and the overall status is COMPLIANT. -/
theorem zero_keys_compliant (users : List IAMUser)
    (h : (mkAnalysisResults users).summary.totalKeys = 0) :
    (mkAnalysisResults users).summary.complianceRate = 100 ∧
    overallStatus (mkAnalysisResults users).summary = .COMPLIANT := by
  simp only [mkAnalysisResults] at *
  have hch := crit_add_high_le_total users
  have hrate : (aggregate (users.map analyzeUser)).complianceRate = 100 := by
    rw [aggregate_complianceRate, h, complianceRateOf, if_pos rfl]
  refine ⟨hrate, ?_⟩
  have hcrit : (aggregate (users.map analyzeUser)).criticalKeys = 0 := by omega
  rw [overallStatus, if_pos]
  exact ⟨hcrit, by rw [hrate]; norm_num [COMPLIANCE_THRESHOLD]⟩

def usersC4 : List IAMUser := [⟨"erin", []⟩]

/-- Witness for C4: an account with one user and no keys. -/
theorem zero_keys_compliant_witness :
    (mkAnalysisResults usersC4).summary.totalKeys = 0 ∧
    ((mkAnalysisResults usersC4).summary.complianceRate = 100 ∧
     overallStatus (mkAnalysisResults usersC4).summary = .COMPLIANT) :=
  ⟨rfl, zero_keys_compliant usersC4 rfl⟩

/-- Claim C5: with positive total keys the compliance rate equals
100 times (total minus critical minus high) over total, rounded to one
decimal, and the compliance rate always lies between 0 and 100. -/
theorem compliance_rate_formula_and_bounds (users : List IAMUser) :
    (0 < (mkAnalysisResults users).summary.totalKeys →
      (mkAnalysisResults users).summary.complianceRate =
        roundTo1 (100 * (((mkAnalysisResults users).summary.totalKeys : ℚ) -
            (mkAnalysisResults users).summary.criticalKeys -
            (mkAnalysisResults users).summary.highRiskKeys) /
          (mkAnalysisResults users).summary.totalKeys)) ∧
    0 ≤ (mkAnalysisResults users).summary.complianceRate ∧
    (mkAnalysisResults users).summary.complianceRate ≤ 100 := by
  simp only [mkAnalysisResults]
  set t := (aggregate (users.map analyzeUser)).totalKeys with ht
  set c := (aggregate (users.map analyzeUser)).criticalKeys with hc
  set g := (aggregate (users.map analyzeUser)).highRiskKeys with hg
  have hch : c + g ≤ t := crit_add_high_le_total users
  have hformula : ∀ _ : 0 < t,
      (aggregate (users.map analyzeUser)).complianceRate =
        roundTo1 (100 * ((t : ℚ) - c - g) / t) := by
    intro hpos
    rw [aggregate_complianceRate, ← ht, ← hc, ← hg, complianceRateOf,
      if_neg (by omega)]
  refine ⟨hformula, ?_⟩
  rcases Nat.eq_zero_or_pos t with h0 | hpos
  · rw [aggregate_complianceRate, ← ht, ← hc, ← hg, complianceRateOf, if_pos h0]
    norm_num
  · rw [hformula hpos]
    have htQ : (0:ℚ) < t := by exact_mod_cast hpos
    have hchQ : (c:ℚ) + g ≤ t := by exact_mod_cast hch
    apply roundTo1_bounds
    · apply div_nonneg _ (le_of_lt htQ)
      nlinarith
    · rw [div_le_iff₀ htQ]
      nlinarith

def usersC5 : List IAMUser :=
  [⟨"frank", [⟨"AKIA5", "frank", "Active", .ageDays 10, .usedDaysAgo 5⟩]⟩]

/-- Witness for C5: one user with one compliant key. -/
theorem compliance_rate_formula_and_bounds_witness :
    0 < (mkAnalysisResults usersC5).summary.totalKeys ∧
    (mkAnalysisResults usersC5).summary.complianceRate =
      roundTo1 (100 * (((mkAnalysisResults usersC5).summary.totalKeys : ℚ) -
          (mkAnalysisResults usersC5).summary.criticalKeys -
          (mkAnalysisResults usersC5).summary.highRiskKeys) /
        (mkAnalysisResults usersC5).summary.totalKeys) ∧
    0 ≤ (mkAnalysisResults usersC5).summary.complianceRate ∧
    (mkAnalysisResults usersC5).summary.complianceRate ≤ 100 :=
  ⟨by decide,
   (compliance_rate_formula_and_bounds usersC5).1 (by decide),
   (compliance_rate_formula_and_bounds usersC5).2⟩

/-- Claim C6: the overall status is COMPLIANT exactly when there are no
critical keys and the compliance rate reaches the configured threshold
of 90; otherwise it is NON_COMPLIANT. -/
theorem overall_status_iff (s : AccountSummary) :
    (overallStatus s = .COMPLIANT ↔
      (s.criticalKeys = 0 ∧ COMPLIANCE_THRESHOLD ≤ s.complianceRate)) ∧
    (overallStatus s ≠ .COMPLIANT → overallStatus s = .NON_COMPLIANT) := by
  constructor
  · unfold overallStatus
    split <;> simp_all
  · intro h
    unfold overallStatus at h ⊢
    split <;> simp_all

/-- Claim C9: every account-summary count is the sum of the
corresponding per-user counts, and the five tier counts sum to the total
key count minus the unparseable key count. -/
theorem account_counts_invariant (users : List IAMUser) :
    ((mkAnalysisResults users).summary.totalKeys =
        ((mkAnalysisResults users).userSummaries.map (fun s => s.keyCount)).sum ∧
      (mkAnalysisResults users).summary.criticalKeys =
        ((mkAnalysisResults users).userSummaries.map
          (fun s => tierCount s.findings .CRITICAL)).sum ∧
      (mkAnalysisResults users).summary.highRiskKeys =
        ((mkAnalysisResults users).userSummaries.map
          (fun s => tierCount s.findings .HIGH)).sum ∧
      (mkAnalysisResults users).summary.mediumKeys =
        ((mkAnalysisResults users).userSummaries.map
          (fun s => tierCount s.findings .MEDIUM)).sum ∧
      (mkAnalysisResults users).summary.lowKeys =
        ((mkAnalysisResults users).userSummaries.map
          (fun s => tierCount s.findings .LOW)).sum ∧
      (mkAnalysisResults users).summary.compliantKeys =
        ((mkAnalysisResults users).userSummaries.map
          (fun s => tierCount s.findings .COMPLIANT)).sum ∧
      (mkAnalysisResults users).summary.unparseableCount =
        ((mkAnalysisResults users).userSummaries.map
          (fun s => s.unparseableKeys.length)).sum) ∧
    (mkAnalysisResults users).summary.criticalKeys +
      (mkAnalysisResults users).summary.highRiskKeys +
      (mkAnalysisResults users).summary.mediumKeys +
      (mkAnalysisResults users).summary.lowKeys +
      (mkAnalysisResults users).summary.compliantKeys =
      (mkAnalysisResults users).summary.totalKeys -
        (mkAnalysisResults users).summary.unparseableCount := by
  have htiers : ∀ t : RiskTier,
      tierCount (accountFindings (users.map analyzeUser)) t =
        ((users.map analyzeUser).map (fun s => tierCount s.findings t)).sum := by
    intro t
    simp only [tierCount, accountFindings, List.countP_flatten, List.map_map]
    rfl
  have hpart := tierCount_partition (accountFindings (users.map analyzeUser))
  have hfu := findings_add_unparseable users
  simp only [mkAnalysisResults]
  refine ⟨⟨rfl, htiers .CRITICAL, htiers .HIGH, htiers .MEDIUM, htiers .LOW,
    htiers .COMPLIANT, rfl⟩, ?_⟩
  rw [aggregate_criticalKeys, aggregate_highRiskKeys, aggregate_mediumKeys,
    aggregate_lowKeys, aggregate_compliantKeys]
  omega

/-- Claim C7: when session initialization fails or the inventory fetch
fails, the run returns False having emitted no report at all. -/
theorem failure_aborts_before_reports (e : SessionEnv)
    (fetched : Option (List IAMUser))
    (h : initialize_aws_session e = false ∨ fetched = none) :
    run_assessment e fetched = ⟨false, []⟩ := by
  cases h with
  | inl h => simp [run_assessment, h]
  | inr h =>
    subst h
    cases hs : initialize_aws_session e <;>
      simp [run_assessment, hs, analyze_all_access_keys]

def envC7 : SessionEnv := ⟨none, true, false⟩

/-- Witness for C7: an environment with no resolvable credentials. -/
theorem failure_aborts_before_reports_witness :
    (initialize_aws_session envC7 = false ∨
      (some ([] : List IAMUser)) = none) ∧
    run_assessment envC7 (some []) = ⟨false, []⟩ :=
  ⟨Or.inl rfl, failure_aborts_before_reports envC7 (some []) (Or.inl rfl)⟩

/-- Claim C8: a `DataError` on one key does not abort the analysis: the
results are still produced, the failing key is reported among its user
unparseable keys, the tier counts exclude exactly the unparseable keys,
and every key that classifies still contributes its finding. -/
theorem data_error_isolated (users : List IAMUser) (u : IAMUser)
    (k : AccessKey) (hu : u ∈ users) (hk : k ∈ u.accessKeys)
    (herr : okFinding k = none) :
    analyze_all_access_keys (some users) = some (mkAnalysisResults users) ∧
    k ∈ (analyzeUser u).unparseableKeys ∧
    (mkAnalysisResults users).summary.criticalKeys +
      (mkAnalysisResults users).summary.highRiskKeys +
      (mkAnalysisResults users).summary.mediumKeys +
      (mkAnalysisResults users).summary.lowKeys +
      (mkAnalysisResults users).summary.compliantKeys +
      (mkAnalysisResults users).summary.unparseableCount =
      (mkAnalysisResults users).summary.totalKeys ∧
    ∀ u' ∈ users, ∀ k' ∈ u'.accessKeys, ∀ f, classifyKey k' = .ok f →
      f ∈ accountFindings (mkAnalysisResults users).userSummaries := by
  have hne : users.isEmpty = false := by
    cases users with
    | nil => cases hu
    | cons a t => rfl
  refine ⟨by simp [analyze_all_access_keys, hne], ?_, ?_, ?_⟩
  · have hbad : isUnparseable k = true := by
      unfold okFinding at herr
      unfold isUnparseable
      cases hck : classifyKey k <;> simp [hck] at herr ⊢
    simpa [analyzeUser, List.mem_filter] using ⟨hk, hbad⟩
  · have hpart := tierCount_partition (accountFindings (users.map analyzeUser))
    have hfu := findings_add_unparseable users
    simp only [mkAnalysisResults]
    rw [aggregate_criticalKeys, aggregate_highRiskKeys, aggregate_mediumKeys,
      aggregate_lowKeys, aggregate_compliantKeys]
    omega
  · intro u' hu' k' hk' f hf
    simp only [mkAnalysisResults, accountFindings, List.mem_flatten,
      List.map_map, List.mem_map]
    refine ⟨(analyzeUser u').findings, ⟨u', hu', rfl⟩, ?_⟩
    simp only [analyzeUser, List.mem_filterMap]
    exact ⟨k', hk', by simp [okFinding, hf]⟩

def kBadC8 : AccessKey := ⟨"AKIA8X", "dave", "Active", .malformed, .never⟩

def kGoodC8 : AccessKey :=
  ⟨"AKIA8Y", "dave", "Active", .ageDays 100, .never⟩

def userC8 : IAMUser := ⟨"dave", [kBadC8, kGoodC8]⟩

/-- Witness for C8: a user with one unparseable key and one that
classifies. -/
theorem data_error_isolated_witness :
    userC8 ∈ [userC8] ∧ kBadC8 ∈ userC8.accessKeys ∧
    okFinding kBadC8 = none ∧
    (analyze_all_access_keys (some [userC8]) =
        some (mkAnalysisResults [userC8]) ∧
      kBadC8 ∈ (analyzeUser userC8).unparseableKeys ∧
      (mkAnalysisResults [userC8]).summary.criticalKeys +
        (mkAnalysisResults [userC8]).summary.highRiskKeys +
        (mkAnalysisResults [userC8]).summary.mediumKeys +
        (mkAnalysisResults [userC8]).summary.lowKeys +
        (mkAnalysisResults [userC8]).summary.compliantKeys +
        (mkAnalysisResults [userC8]).summary.unparseableCount =
        (mkAnalysisResults [userC8]).summary.totalKeys ∧
      ∀ u' ∈ [userC8], ∀ k' ∈ u'.accessKeys, ∀ f, classifyKey k' = .ok f →
        f ∈ accountFindings (mkAnalysisResults [userC8]).userSummaries) :=
  ⟨List.Mem.head _, List.Mem.head _, rfl,
    data_error_isolated [userC8] userC8 kBadC8 (List.Mem.head _)
      (List.Mem.head _) rfl⟩

/-- Claim C10: an inventory with no IAM users makes
`analyze_all_access_keys` return None and `run_assessment` return False
with no JSON or CSV report written, whatever the session outcome. -/
theorem empty_inventory_fails (e : SessionEnv) :
    analyze_all_access_keys (some []) = none ∧
    (run_assessment e (some [])).success = false ∧
    (run_assessment e (some [])).reports = [] := by
  refine ⟨rfl, ?_, ?_⟩ <;>
    cases hs : initialize_aws_session e <;>
      simp [run_assessment, hs, analyze_all_access_keys]

end KeyRotation
